import Mathlib

/-!
Shallow embedding of the skill-gap analysis engine in
`src/analyzers/skill_matcher_hybrid.py` (class `HybridSemanticSkillMatcher`)
and its data model in `src/models/skill_gap_model.py`.

Numeric values are modelled with `ℚ` (Python floats are treated as exact
real arithmetic) and `ℤ` for integer-typed fields.  Python dicts are
modelled as association lists in insertion order; `dict.get(k, d)` becomes
`Option.getD` on optional fields or `List.lookup … |>.getD d`.  The two
external callables of the pipeline — the fuzzywuzzy scorer used by
`process.extract(…, scorer=fuzz.token_sort_ratio)` and the `hashlib.md5`
digest used by `_mock_bert_embedding` — are third-party library functions,
so they are taken as parameters (pure functions), exactly as the code uses
them.
-/

namespace SkillGap

/-- `SkillPriority` from `src/models/skill_gap_model.py`. -/
inductive SkillPriority where
  | critical
  | high
  | medium
  | low
deriving DecidableEq, Repr

/-- One skill's entry in the job-requirement store
(`job_requirements[job]["skills"][name]`).  Every field is read with
`dict.get(key, default)` in the code, so each is an `Option` here; the
defaults are applied at the use sites, as in the source. -/
structure SkillInfo where
  complexity : Option ℤ
  prerequisites : Option (List String)
  category : Option String
  learning_hours : Option ℤ
  salary_impact : Option ℚ
  market_demand : Option ℚ
  importance : Option ℚ
  priority : Option String
deriving DecidableEq, Repr

/-- A job's entry in the requirement store: its `"skills"` dict, as an
association list in insertion order.  (A store entry lacking the
`"skills"` key would make `analyze` raise `KeyError`, a malformed-store
fault outside the modelled claims.) -/
structure JobData where
  skills : List (String × SkillInfo)
deriving DecidableEq, Repr

/-- Node of the derived skill graph (`_build_skill_graph` values). -/
structure GraphNode where
  level : ℤ
  prerequisites : List String
  category : String
deriving DecidableEq, Repr

/-- Inner loop of `_build_skill_graph`: one job's skills dict projected to
graph nodes, applying the defaults `complexity → 3`, `prerequisites → []`,
`category → "technical"`. -/
def jobDataToGraph (jd : JobData) : List (String × GraphNode) :=
  jd.skills.map fun q =>
    (q.1,
      { level := q.2.complexity.getD 3
        prerequisites := q.2.prerequisites.getD []
        category := q.2.category.getD "technical" })

/-- `_build_skill_graph`: project the requirement store to the graph. -/
def buildSkillGraph (jr : List (String × JobData)) :
    List (String × List (String × GraphNode)) :=
  jr.map fun p => (p.1, jobDataToGraph p.2)

/-- The matcher's piece of state loaded from external configuration
(`self.job_requirements`); `self.skill_graph` is derived from it by
`_build_skill_graph` in `__init__`. -/
structure Matcher where
  job_requirements : List (String × JobData)
deriving DecidableEq, Repr

def Matcher.skill_graph (m : Matcher) : List (String × List (String × GraphNode)) :=
  buildSkillGraph m.job_requirements

/-- `get_available_jobs`. -/
def Matcher.get_available_jobs (m : Matcher) : List String :=
  m.job_requirements.map Prod.fst

/-! ### Python string helpers -/

/-- Word character for the regex `\b` boundary (`[a-zA-Z0-9_]`). -/
def isWordChar (c : Char) : Bool :=
  c.isAlphanum || c = '_'

def boundaryBefore : Option Char → Bool
  | none => true
  | some c => !isWordChar c

def boundaryAfter : List Char → Bool
  | [] => true
  | c :: _ => !isWordChar c

/-- Scan for an occurrence of `p` with word boundaries on both sides;
`prev` is the character just before the current position. -/
def wbSearchAux (p : List Char) : Option Char → List Char → Bool
  | prev, [] => p.isPrefixOf ([] : List Char) && boundaryBefore prev
  | prev, c :: rest =>
      (p.isPrefixOf (c :: rest) && boundaryBefore prev
        && boundaryAfter ((c :: rest).drop p.length))
      || wbSearchAux p (some c) rest

/-- `re.search(r'\b' + re.escape(pattern.lower()) + r'\b', text.lower())`
as used in `_regex_extract_skills`.  Faithful for patterns whose first and
last characters are word characters, which holds for every taxonomy name
and alias. -/
def wordBoundarySearch (pat text : String) : Bool :=
  wbSearchAux pat.toLower.toList none text.toLower.toList

/-- Non-overlapping substring count, body of `pyCount`
(`str.count` semantics: after a hit, skip past the whole pattern). -/
def countAux (a : Char) (p : List Char) : List Char → ℕ
  | [] => 0
  | c :: rest =>
      if (a :: p).isPrefixOf (c :: rest) then
        1 + countAux a p (rest.drop p.length)
      else
        countAux a p rest
termination_by t => t.length
decreasing_by
  all_goals simp only [List.length_drop, List.length_cons]
  all_goals omega

/-- Python `s.count(sub)`: non-overlapping occurrences; for the empty
pattern Python returns `len(s) + 1`. -/
def pyCount (sub s : String) : ℕ :=
  match sub.toList with
  | [] => s.toList.length + 1
  | a :: p => countAux a p s.toList

/-! ### Stage 1: fast NER extraction -/

/-- `_load_skill_taxonomy`, with Python dict-literal semantics: the source
literal repeats the keys `"R"` and `"Tableau"`, so each keeps its first
position but takes the value of its last assignment. -/
def skillTaxonomy : List (String × List String) :=
  [ ("Python", ["python", "py"])
  , ("Java", ["java"])
  , ("JavaScript", ["javascript", "js", "node"])
  , ("React", ["react", "reactjs"])
  , ("SQL", ["sql", "mysql", "postgresql"])
  , ("Git", ["git", "github", "version control"])
  , ("Docker", ["docker", "containerization"])
  , ("REST APIs", ["rest", "api", "rest api"])
  , ("Machine Learning", ["machine learning", "ml", "deep learning"])
  , ("R", ["r", "r programming"])
  , ("AWS", ["aws", "amazon web services"])
  , ("Tableau", ["tableau", "tableau desktop"])
  , ("Communication", ["communication", "presentation"])
  , ("Spring Boot", ["spring boot", "spring"])
  , ("PostgreSQL", ["postgresql", "postgres"])
  , ("Kubernetes", ["kubernetes", "k8s"])
  , ("CSS", ["css", "styling"])
  , ("TypeScript", ["typescript", "ts"])
  , ("Testing", ["testing", "jest", "pytest"])
  , ("Statistics", ["statistics", "stats"]) ]

/-- `_regex_extract_skills`: record a canonical skill with confidence 1.0
as soon as the skill name or any alias hits as a whole word. -/
def regexExtractSkills (text : String) : List (String × ℚ) :=
  (skillTaxonomy.filter fun p =>
      (p.1 :: p.2).any fun pat => wordBoundarySearch pat text).map
    fun p => (p.1, 1)

structure NormalizedSkill where
  original : String
  normalized : String
  confidence : ℚ
deriving DecidableEq, Repr

/-- `process.extract(query, choices, scorer=…, limit=1)`: best-scoring
choice, first choice winning ties (the library sorts stably by
descending score). -/
def extractBest (scorer : String → String → ℕ) (query : String) :
    List String → Option (String × ℕ)
  | [] => none
  | c :: cs =>
      match extractBest scorer query cs with
      | none => some (c, scorer query c)
      | some (b, sb) =>
          if scorer query c ≥ sb then some (c, scorer query c) else some (b, sb)

/-- `_fuzzy_normalize_skills`: keep the best taxonomy match when its score
is at least 75, with confidence `score / 100`. -/
def fuzzyNormalizeSkills (scorer : String → String → ℕ)
    (extracted : List (String × ℚ)) : List NormalizedSkill :=
  extracted.filterMap fun e =>
    match extractBest scorer e.1 (skillTaxonomy.map Prod.fst) with
    | none => none
    | some (best, sc) =>
        if sc ≥ 75 then some ⟨e.1, best, (sc : ℚ) / 100⟩ else none

structure ScoredSkill where
  confidence : ℚ
  tfidf_score : ℚ
  frequency : ℕ
deriving DecidableEq, Repr

/-- Python dict assignment `d[k] = v` on an insertion-ordered association
list: an existing key keeps its position and takes the new value. -/
def dictInsert {α : Type} (k : String) (v : α) :
    List (String × α) → List (String × α)
  | [] => [(k, v)]
  | p :: rest => if p.1 = k then (k, v) :: rest else p :: dictInsert k v rest

/-- `_tfidf_score`: score each normalized skill by
`(count in job description + 1) × confidence`; the `scored` dict is keyed
by the normalized name, so a later duplicate overwrites. -/
def tfidfScore (normalized : List NormalizedSkill) (job_desc : String) :
    List (String × ScoredSkill) :=
  normalized.foldl
    (fun scored item =>
      let count := pyCount item.normalized.toLower job_desc.toLower
      dictInsert item.normalized
        ⟨item.confidence, ((count : ℚ) + 1) * item.confidence, count⟩ scored)
    []

structure NerResults where
  extracted : List (String × ℚ)
  normalized : List NormalizedSkill
  scored : List (String × ScoredSkill)
deriving DecidableEq, Repr

/-- `_stage1_fast_ner`. -/
def stage1FastNer (scorer : String → String → ℕ)
    (resume_text job_desc : String) : NerResults :=
  let extracted := regexExtractSkills resume_text
  let normalized := fuzzyNormalizeSkills scorer extracted
  let scored := tfidfScore normalized job_desc
  ⟨extracted, normalized, scored⟩

/-! ### Stage 2: semantic enrichment -/

/-- `self.embedding_cache`: skill string → embedding vector, in insertion
order. -/
abbrev EmbeddingCache := List (String × List ℤ)

/-- `_mock_bert_embedding`: 384 components, each
`((hash_int >> i) % 2) * 2 - 1`, from the md5 digest of the lowercased
text (the digest function `md5int` is the `hashlib` library call,
taken as a parameter). -/
def mockBertEmbedding (md5int : String → ℕ) (text : String) : List ℤ :=
  (List.range 384).map fun i =>
    (((md5int text.toLower >>> i) % 2 : ℕ) : ℤ) * 2 - 1

/-- `_get_cached_embedding`: return the cached vector, or compute and
append it to the shared cache. -/
def getCachedEmbedding (md5int : String → ℕ) (cache : EmbeddingCache)
    (skill : String) : List ℤ × EmbeddingCache :=
  match cache.lookup skill with
  | some e => (e, cache)
  | none =>
      let e := mockBertEmbedding md5int skill
      (e, cache ++ [(skill, e)])

/-- `_calculate_context_score`: weighted sum of a fixed semantic
placeholder (0.5), two capped term-frequency components, and a fixed
industry weight (0.8), clamped to at most 1. -/
def calculateContextScore (skill : String) (_embedding : List ℤ)
    (job_desc : String) : ℚ :=
  let semantic : ℚ := 0.5
  let occurrence := pyCount skill.toLower job_desc.toLower
  let job_relevance : ℚ := min ((occurrence : ℚ) / 5) 1
  let frequency : ℚ := min ((occurrence : ℚ) / 3) 1
  let industry_weight : ℚ := 0.8
  min (0.4 * semantic + 0.3 * job_relevance + 0.2 * frequency
    + 0.1 * industry_weight) 1

/-- `_find_similar_skills`: the source returns the empty list
unconditionally (placeholder body). -/
def findSimilarSkills (_embedding : List ℤ) (_top_k : ℕ) : List String :=
  []

structure EnrichedSkill where
  skill : String
  confidence : ℚ
  tfidf_score : ℚ
  embedding : List ℤ
  context_score : ℚ
  similar_skills : List String
deriving DecidableEq, Repr

/-- `_stage2_semantic_enrichment`: enrich each scored skill in order,
threading the shared embedding cache (the Python `for` loop appending to
`enriched`, rendered as structural recursion over the scored list). -/
def stage2SemanticEnrichment (md5int : String → ℕ)
    (scored : List (String × ScoredSkill)) (job_desc : String)
    (cache : EmbeddingCache) : List EnrichedSkill × EmbeddingCache :=
  match scored with
  | [] => ([], cache)
  | p :: rest =>
      let e := getCachedEmbedding md5int cache p.1
      let r := stage2SemanticEnrichment md5int rest job_desc e.2
      (⟨p.1, p.2.confidence, p.2.tfidf_score, e.1,
        calculateContextScore p.1 e.1 job_desc,
        findSimilarSkills e.1 2⟩ :: r.1, r.2)

/-! ### Stage 3: graph matching -/

/-- One record of `_stage3_graph_matching`'s `matched` list. -/
structure GraphMatch where
  skill : String
  type : String
  match_score : ℚ
  level : ℤ
deriving DecidableEq, Repr

/-- `_stage3_graph_matching`: lowercase the enriched skill names, then
classify every required skill of the job's graph as `direct` (1.0),
`prerequisite_met` (0.7, non-empty prerequisite list all present), or
`missing` (0.0). -/
def stage3GraphMatching (enriched : List EnrichedSkill)
    (skill_graph : List (String × List (String × GraphNode)))
    (target_job : String) : List GraphMatch :=
  let user_skills_normalized := enriched.map fun e => e.skill.toLower
  let job_graph := (skill_graph.lookup target_job).getD []
  job_graph.map fun p =>
    if user_skills_normalized.contains p.1.toLower then
      { skill := p.1, type := "direct", match_score := 1, level := p.2.level }
    else if p.2.prerequisites ≠ [] then
      if p.2.prerequisites.all fun q => user_skills_normalized.contains q.toLower then
        { skill := p.1, type := "prerequisite_met", match_score := 0.7
          level := p.2.level }
      else
        { skill := p.1, type := "missing", match_score := 0, level := p.2.level }
    else
      { skill := p.1, type := "missing", match_score := 0, level := p.2.level }

/-! ### Stage 4: quantified gap analysis -/

/-- `SkillGapItem` from `src/models/skill_gap_model.py` (the constant
`recommended_resources=[]` field is omitted as it is never set). -/
structure SkillGapItem where
  skill_name : String
  priority : SkillPriority
  learning_hours : ℤ
  salary_impact : ℚ
  difficulty : ℤ
  market_demand : ℚ
  roi : ℚ
  weeks_to_proficiency : ℚ
  job_relevance : ℚ
  extraction_method : String
  confidence_score : ℚ
deriving DecidableEq, Repr

/-- `_determine_priority`: weighted score of capped hour and salary
components; the `base_priority` argument is accepted but never used. -/
def determinePriority (_base_priority : String) (learning_hours : ℤ)
    (salary_impact : ℚ) : SkillPriority :=
  let hour_score : ℚ := min ((learning_hours : ℚ) / 300 * 10) 10
  let salary_score : ℚ := min (salary_impact / 30000 * 10) 10
  let score : ℚ :=
    0.35 * (10 - hour_score) + 0.40 * salary_score + 0.25 * (10 - hour_score)
  if score ≥ 7.5 then .critical
  else if score ≥ 6.0 then .high
  else if score ≥ 4.0 then .medium
  else .low

/-- `_estimate_difficulty`: `min(complexity * 2 + required_level, 10)`. -/
def estimateDifficulty (complexity required_level : ℤ) : ℤ :=
  min (complexity * 2 + required_level) 10

/-- Insert one item into a list that is already sorted by `roi`
descending, after every earlier item of equal `roi`. -/
def insertDescByRoi (x : SkillGapItem) :
    List SkillGapItem → List SkillGapItem
  | [] => [x]
  | y :: ys => if y.roi ≤ x.roi then x :: y :: ys else y :: insertDescByRoi x ys

/-- `gaps.sort(key=lambda x: x.roi, reverse=True)`: Python's list sort is
stable and `reverse=True` keeps equal elements in their original order, so
it is modelled by stable descending insertion sort. -/
def sortByRoiDesc : List SkillGapItem → List SkillGapItem
  | [] => []
  | x :: xs => insertDescByRoi x (sortByRoiDesc xs)

/-- The default `SkillInfo` produced by `job_requirements.get(skill, {})`
on a miss: an empty dict, every field absent. -/
def emptySkillInfo : SkillInfo :=
  ⟨none, none, none, none, none, none, none, none⟩

/-- `_stage4_quantified_analysis`: build one gap item per match classified
`missing`, substituting defaults for absent requirement details, then sort
by ROI descending. -/
def stage4QuantifiedAnalysis (graph_matched : List GraphMatch)
    (job_requirements : List (String × SkillInfo)) : List SkillGapItem :=
  let gaps := (graph_matched.filter fun m => m.type = "missing").map fun m =>
    let req := (job_requirements.lookup m.skill).getD emptySkillInfo
    let learning_hours := req.learning_hours.getD 100
    let salary_impact := req.salary_impact.getD 5000
    { skill_name := m.skill
      priority := determinePriority (req.priority.getD "medium")
        learning_hours salary_impact
      learning_hours := learning_hours
      salary_impact := salary_impact
      difficulty := estimateDifficulty (req.complexity.getD 3) m.level
      market_demand := req.market_demand.getD 0.5
      roi := salary_impact / ((max learning_hours 1 : ℤ) : ℚ)
      weeks_to_proficiency := (learning_hours : ℚ) / 40
      job_relevance := req.importance.getD 0.5
      extraction_method := "hybrid"
      confidence_score := 0.92 }
  sortByRoiDesc gaps

/-! ### Result compilation -/

/-- `MatchedSkill` from `src/models/skill_gap_model.py`. -/
structure MatchedSkill where
  skill_name : String
  proficiency_level : String
  required_level : String
  extraction_method : String
deriving DecidableEq, Repr

/-- `SkillGapAnalysisResult` from `src/models/skill_gap_model.py`
(the `analysis_details` field, a fixed literal dict, is omitted). -/
structure SkillGapAnalysisResult where
  job_title : String
  user_skill_count : ℕ
  required_skill_count : ℕ
  match_percentage : ℚ
  matched_skills : List MatchedSkill
  skill_gaps : List SkillGapItem
  total_learning_hours : ℤ
  estimated_weeks : ℚ
  potential_salary_increase : ℚ
  average_difficulty : ℚ
  market_demand_score : ℚ
  recommendation : String
  learning_roadmap : List String
deriving DecidableEq, Repr

/-- Python `round(x)` / `round(x, n)` on the scaled value: round half to
even (banker's rounding); away from exact halves it agrees with rounding
to the nearest integer. -/
def pyRound (q : ℚ) : ℤ :=
  if q - ⌊q⌋ = 1 / 2 then (if ⌊q⌋ % 2 = 0 then ⌊q⌋ else ⌊q⌋ + 1)
  else round q

/-- Python `round(x, 1)`. -/
def round1 (q : ℚ) : ℚ :=
  ((pyRound (q * 10) : ℤ) : ℚ) / 10

/-- Python `f"{x:.0f}"` used by `_generate_recommendation`. -/
def fmtF0 (q : ℚ) : String :=
  toString (pyRound q)

/-- `_generate_recommendation`: templated sentence chosen by
match-percentage bucket. -/
def generateRecommendation (match_percentage : ℚ) (estimated_weeks : ℚ)
    (skill_gaps : List SkillGapItem) : String :=
  if match_percentage ≥ 80 then
    "Excellent! You\x27re well-prepared. Focus on "
      ++ toString skill_gaps.length
      ++ " remaining skills to master the role."
  else if match_percentage ≥ 60 then
    let high_priority :=
      (skill_gaps.filter fun g => g.priority = SkillPriority.high).length
    "Good progress! Learn " ++ toString high_priority
      ++ " HIGH priority skills. " ++ fmtF0 estimated_weeks
      ++ " weeks with 40hrs/week effort."
  else if match_percentage ≥ 40 then
    "You have foundation skills. Invest " ++ fmtF0 estimated_weeks
      ++ " weeks in focused learning. Start with highest ROI skills first."
  else
    "Consider dedicated training courses. You need " ++ fmtF0 estimated_weeks
      ++ " weeks to close critical gaps. Focus on: "
      ++ (match skill_gaps with
          | [] => "core fundamentals"
          | g :: _ => g.skill_name) ++ "."

/-- `_compile_results`. -/
def compileResults (user_skills : List String) (target_job : String)
    (job_requirements : List (String × SkillInfo))
    (skill_gaps : List SkillGapItem) (graph_matched : List GraphMatch) :
    SkillGapAnalysisResult :=
  let matched_count := (graph_matched.filter fun m =>
    m.type = "direct" ∨ m.type = "prerequisite_met").length
  let total_required := job_requirements.length
  let match_percentage : ℚ :=
    if total_required = 0 then 0
    else ((matched_count : ℚ) / (total_required : ℚ)) * 100
  let total_learning_hours : ℤ := (skill_gaps.map (·.learning_hours)).sum
  let estimated_weeks : ℚ := (total_learning_hours : ℚ) / 40
  let potential_salary := (skill_gaps.map (·.salary_impact)).sum
  let avg_difficulty : ℚ :=
    match skill_gaps with
    | [] => 0
    | _ => ((skill_gaps.map fun g => (g.difficulty : ℚ)).sum)
        / (skill_gaps.length : ℚ)
  let learning_roadmap := skill_gaps.enum.map fun p =>
    toString (p.1 + 1) ++ ". " ++ p.2.skill_name
  let recommendation :=
    generateRecommendation match_percentage estimated_weeks skill_gaps
  let user_skills_lower := user_skills.map String.toLower
  let matched_skills := (job_requirements.filter fun p =>
      user_skills_lower.contains p.1.toLower).map fun p =>
    MatchedSkill.mk p.1 "intermediate" "expert" "hybrid"
  { job_title := target_job
    user_skill_count := matched_skills.length
    required_skill_count := total_required
    match_percentage := round1 match_percentage
    matched_skills := matched_skills
    skill_gaps := skill_gaps
    total_learning_hours := total_learning_hours
    estimated_weeks := round1 estimated_weeks
    potential_salary_increase := potential_salary
    average_difficulty := round1 avg_difficulty
    market_demand_score :=
      ((skill_gaps.map (·.market_demand)).sum) / ((max skill_gaps.length 1 : ℕ) : ℚ)
    recommendation := recommendation
    learning_roadmap := learning_roadmap }

/-! ### Orchestrator -/

/-- The failure raised by `analyze`:
`ValueError(f"Job profile not found: {target_job}")`. -/
inductive AnalyzeError where
  | jobNotFound (target_job : String)
deriving DecidableEq, Repr

/-- Python `a or b` for an optional string default: an absent *or empty*
string falls back to the default. -/
def pyOrDefault (s : Option String) (dflt : String) : String :=
  match s with
  | none => dflt
  | some s => if s = "" then dflt else s

/-- `analyze`: validate the job, default the free texts, run the four
stages, and compile the result.  The shared `embedding_cache` is threaded
explicitly; `scorer` and `md5int` are the external library functions
(fuzzywuzzy and hashlib). -/
def analyze (scorer : String → String → ℕ) (md5int : String → ℕ)
    (m : Matcher) (cache : EmbeddingCache) (user_skills : List String)
    (target_job : String) (resume_text job_desc : Option String) :
    Except AnalyzeError SkillGapAnalysisResult × EmbeddingCache :=
  match m.job_requirements.lookup target_job with
  | none => (.error (.jobNotFound target_job), cache)
  | some jd =>
      let job_requirements := jd.skills
      let resume_text :=
        pyOrDefault resume_text (String.intercalate " " user_skills)
      let job_desc := pyOrDefault job_desc
        (String.intercalate " " (job_requirements.map Prod.fst))
      let ner_results := stage1FastNer scorer resume_text job_desc
      let semantic_results :=
        stage2SemanticEnrichment md5int ner_results.scored job_desc cache
      let graph_matched :=
        stage3GraphMatching semantic_results.1 m.skill_graph target_job
      let skill_gaps := stage4QuantifiedAnalysis graph_matched job_requirements
      (.ok (compileResults user_skills target_job job_requirements
        skill_gaps graph_matched), semantic_results.2)

/-- The graph-stage output computed inside a given `analyze` call: the
same stage-1 → stage-2 → stage-3 prefix of the pipeline, on the same
defaulted texts (used to state invariants that relate the final result to
the intermediate match records). -/
def analyzeGraphMatches (scorer : String → String → ℕ) (md5int : String → ℕ)
    (m : Matcher) (cache : EmbeddingCache) (user_skills : List String)
    (target_job : String) (resume_text job_desc : Option String) :
    List GraphMatch :=
  match m.job_requirements.lookup target_job with
  | none => []
  | some jd =>
      let job_requirements := jd.skills
      let resume_text :=
        pyOrDefault resume_text (String.intercalate " " user_skills)
      let job_desc := pyOrDefault job_desc
        (String.intercalate " " (job_requirements.map Prod.fst))
      let ner_results := stage1FastNer scorer resume_text job_desc
      let semantic_results :=
        stage2SemanticEnrichment md5int ner_results.scored job_desc cache
      stage3GraphMatching semantic_results.1 m.skill_graph target_job

/-! ### Spec-modelled similar-skill lookup

The spec (§4.2) specifies the similar-skill lookup as: compute the cosine
similarity between this skill's embedding and every other taxonomy
skill's cached embedding and return the top-K highest-similarity names,
excluding the skill itself.  The defs below follow those words (they are
the refinement target that `_find_similar_skills` is compared against;
the source body is a stub returning `[]`). -/

def dotProd (a b : List ℤ) : ℤ :=
  (List.zipWith (· * ·) a b).sum

def normSq (a : List ℤ) : ℤ :=
  (a.map fun x => x * x).sum

/-- A strictly increasing rational image of the cosine similarity
`dot/(‖a‖·‖b‖)`: its sign times its square.  Ranking by it coincides with
ranking by the cosine, while staying inside `ℚ`. -/
def signedCosSq (a b : List ℤ) : ℚ :=
  let d := dotProd a b
  let den := normSq a * normSq b
  if den = 0 then 0
  else (if d ≥ 0 then (1 : ℚ) else -1) * ((d * d : ℤ) : ℚ) / ((den : ℤ) : ℚ)

def insertDescBySim (x : String × ℚ) :
    List (String × ℚ) → List (String × ℚ)
  | [] => [x]
  | y :: ys => if y.2 ≤ x.2 then x :: y :: ys else y :: insertDescBySim x ys

def sortDescBySim : List (String × ℚ) → List (String × ℚ)
  | [] => []
  | x :: xs => insertDescBySim x (sortDescBySim xs)

/-- Modelled from the spec: the similar-skill lookup that
`_find_similar_skills` is documented to perform — rank every *other*
cached taxonomy skill by cosine similarity with this skill's embedding
and return the top-K names. -/
def specSimilarSkills (cache : EmbeddingCache) (skill : String)
    (embedding : List ℤ) (top_k : ℕ) : List String :=
  let candidates := (cache.filter fun p => p.1 ≠ skill).map
    fun p => (p.1, signedCosSq embedding p.2)
  ((sortDescBySim candidates).take top_k).map Prod.fst

/-! ### General lemmas -/

lemma length_filter_add_length_not {α : Type} (p : α → Bool) (l : List α) :
    (l.filter p).length + (l.filter fun a => !(p a)).length = l.length := by
  induction l with
  | nil => rfl
  | cons a l ih =>
      cases h : p a <;> simp [List.filter_cons, h, ← ih] <;> omega

lemma lookup_map_snd {α β : Type} (f : α → β) (k : String) :
    ∀ l : List (String × α),
      (l.map fun p => (p.1, f p.2)).lookup k = (l.lookup k).map f
  | [] => rfl
  | p :: rest => by
      obtain ⟨k', v⟩ := p
      simp only [List.map_cons, List.lookup]
      cases h : k == k'
      · simpa [h] using lookup_map_snd f k rest
      · simp [h]

/-! ### Lemmas about the ROI sort -/

lemma insertDescByRoi_perm (x : SkillGapItem) (l : List SkillGapItem) :
    List.Perm (insertDescByRoi x l) (x :: l) := by
  induction l with
  | nil => exact List.Perm.refl _
  | cons y ys ih =>
      simp only [insertDescByRoi]
      split
      · exact List.Perm.refl _
      · exact (ih.cons y).trans (List.Perm.swap x y ys)

lemma sortByRoiDesc_perm (l : List SkillGapItem) :
    List.Perm (sortByRoiDesc l) l := by
  induction l with
  | nil => exact List.Perm.refl _
  | cons x xs ih =>
      exact (insertDescByRoi_perm x (sortByRoiDesc xs)).trans (ih.cons x)

lemma insertDescByRoi_pairwise (x : SkillGapItem) (l : List SkillGapItem)
    (h : l.Pairwise fun a b => b.roi ≤ a.roi) :
    (insertDescByRoi x l).Pairwise fun a b => b.roi ≤ a.roi := by
  induction l with
  | nil => simp [insertDescByRoi]
  | cons y ys ih =>
      rw [List.pairwise_cons] at h
      simp only [insertDescByRoi]
      split
      · rename_i hyx
        refine List.pairwise_cons.mpr ⟨fun z hz => ?_, List.pairwise_cons.mpr h⟩
        rcases List.mem_cons.mp hz with hz | hz
        · exact hz ▸ hyx
        · exact le_trans (h.1 z hz) hyx
      · rename_i hyx
        have hxy : x.roi ≤ y.roi := le_of_lt (lt_of_not_le hyx)
        refine List.pairwise_cons.mpr ⟨fun z hz => ?_, ih h.2⟩
        rcases List.mem_cons.mp ((insertDescByRoi_perm x ys).mem_iff.mp hz) with hz | hz
        · exact hz ▸ hxy
        · exact h.1 z hz

lemma sortByRoiDesc_sorted (l : List SkillGapItem) :
    (sortByRoiDesc l).Pairwise fun a b => b.roi ≤ a.roi := by
  induction l with
  | nil => simp [sortByRoiDesc]
  | cons x xs ih => exact insertDescByRoi_pairwise x _ ih

lemma filter_insertDescByRoi (r : ℚ) (x : SkillGapItem)
    (l : List SkillGapItem) :
    (insertDescByRoi x l).filter (fun g => decide (g.roi = r)) =
      if x.roi = r then x :: l.filter (fun g => decide (g.roi = r))
      else l.filter (fun g => decide (g.roi = r)) := by
  induction l with
  | nil =>
      by_cases hx : x.roi = r <;> simp [insertDescByRoi, List.filter, hx]
  | cons y ys ih =>
      simp only [insertDescByRoi]
      by_cases hyx : y.roi ≤ x.roi
      · rw [if_pos hyx]
        simp only [List.filter_cons]
        by_cases hx : x.roi = r <;> simp [hx]
      · rw [if_neg hyx]
        have hlt : x.roi < y.roi := lt_of_not_le hyx
        by_cases hx : x.roi = r
        · have hy : ¬ y.roi = r := by
            rw [← hx]; exact ne_of_gt hlt
          simp only [List.filter_cons, ih]
          simp [hx, hy]
        · simp only [List.filter_cons, ih]
          simp [hx]

lemma sortByRoiDesc_stable (l : List SkillGapItem) (r : ℚ) :
    (sortByRoiDesc l).filter (fun g => decide (g.roi = r)) =
      l.filter (fun g => decide (g.roi = r)) := by
  induction l with
  | nil => rfl
  | cons x xs ih =>
      simp only [sortByRoiDesc, filter_insertDescByRoi, ih, List.filter_cons]
      by_cases hx : x.roi = r <;> simp [hx]

/-! ### Lemmas about Python rounding -/

lemma pyRound_nonneg {q : ℚ} (h : 0 ≤ q) : 0 ≤ pyRound q := by
  unfold pyRound
  have hf : (0 : ℤ) ≤ ⌊q⌋ := Int.floor_nonneg.mpr h
  split
  · split <;> omega
  · rw [round_eq]
    exact Int.floor_nonneg.mpr (by linarith)

lemma pyRound_le {q : ℚ} {n : ℤ} (h : q ≤ n) : pyRound q ≤ n := by
  unfold pyRound
  split
  · rename_i htie
    have hq : (⌊q⌋ : ℚ) + 1 / 2 = q := by linarith
    have hlt : (⌊q⌋ : ℚ) < (n : ℚ) := by linarith
    have hfn : ⌊q⌋ < n := by exact_mod_cast hlt
    split <;> omega
  · rw [round_eq]
    calc ⌊q + 1 / 2⌋ ≤ ⌊(n : ℚ) + 1 / 2⌋ := Int.floor_le_floor (by linarith)
    _ = n := by
        rw [add_comm, Int.floor_add_int]
        norm_num

lemma round1_bounds {q : ℚ} (h0 : 0 ≤ q) (h1 : q ≤ 100) :
    0 ≤ round1 q ∧ round1 q ≤ 100 := by
  have ha : (0 : ℤ) ≤ pyRound (q * 10) := pyRound_nonneg (by linarith)
  have hb : pyRound (q * 10) ≤ (1000 : ℤ) :=
    pyRound_le (by push_cast; linarith)
  have ha' : (0 : ℚ) ≤ (pyRound (q * 10) : ℚ) := by exact_mod_cast ha
  have hb' : ((pyRound (q * 10) : ℤ) : ℚ) ≤ 1000 := by exact_mod_cast hb
  unfold round1
  constructor <;> linarith

lemma round1_zero : round1 0 = 0 := by
  unfold round1 pyRound
  norm_num

/-! ### Claim C2 -/

/-- The priority rule as the spec words it (comparison target for C2):
`score = 0.60×(10 − min(learning_hours/300×10, 10)) +
0.40×min(salary_impact/30000×10, 10)`, with `≥` thresholds 7.5 / 6.0 /
4.0, and no dependence on the stored base priority. -/
def specPriorityScore (learning_hours : ℤ) (salary_impact : ℚ) : ℚ :=
  0.60 * (10 - min ((learning_hours : ℚ) / 300 * 10) 10)
    + 0.40 * min (salary_impact / 30000 * 10) 10

def specPriority (learning_hours : ℤ) (salary_impact : ℚ) : SkillPriority :=
  if specPriorityScore learning_hours salary_impact ≥ 7.5 then .critical
  else if specPriorityScore learning_hours salary_impact ≥ 6.0 then .high
  else if specPriorityScore learning_hours salary_impact ≥ 4.0 then .medium
  else .low

/-- C2: for every gap item the priority is the deterministic, pure
function of `(learning_hours, salary_impact)` given by the documented
score `0.60×(10 − min(learning_hours/300×10, 10)) +
0.40×min(salary_impact/30000×10, 10)` with `≥`-thresholds 7.5 / 6.0 /
4.0 (so boundary scores map to the higher bucket), and the stored
`base_priority` argument has no effect on the result. -/
theorem C2_priority_pure_function (base_priority : String)
    (learning_hours : ℤ) (salary_impact : ℚ) :
    determinePriority base_priority learning_hours salary_impact
      = specPriority learning_hours salary_impact := by
  simp only [determinePriority, specPriority, specPriorityScore]
  have h : (0.35 : ℚ) * (10 - min ((learning_hours : ℚ) / 300 * 10) 10)
      + 0.40 * min (salary_impact / 30000 * 10) 10
      + 0.25 * (10 - min ((learning_hours : ℚ) / 300 * 10) 10)
      = 0.60 * (10 - min ((learning_hours : ℚ) / 300 * 10) 10)
      + 0.40 * min (salary_impact / 30000 * 10) 10 := by ring
  rw [h]

/-! ### Claim C10 -/

/-- C10: the context score equals
`0.4×0.5 + 0.3×min(occ/5, 1) + 0.2×min(occ/3, 1) + 0.1×0.8` where `occ`
is the case-insensitive count of the skill in the job description, and it
always lies in `[0.28, 0.78]`, so the final clamp at 1.0 never changes
the value (the stated equality is against the *unclamped* sum). -/
theorem C10_context_score_formula (skill : String) (embedding : List ℤ)
    (job_desc : String) :
    calculateContextScore skill embedding job_desc
      = 0.4 * 0.5
        + 0.3 * min ((pyCount skill.toLower job_desc.toLower : ℚ) / 5) 1
        + 0.2 * min ((pyCount skill.toLower job_desc.toLower : ℚ) / 3) 1
        + 0.1 * 0.8
      ∧ 0.28 ≤ calculateContextScore skill embedding job_desc
      ∧ calculateContextScore skill embedding job_desc ≤ 0.78 := by
  have h5a : (0 : ℚ) ≤ min ((pyCount skill.toLower job_desc.toLower : ℚ) / 5) 1 :=
    le_min (by positivity) (by norm_num)
  have h5b : min ((pyCount skill.toLower job_desc.toLower : ℚ) / 5) 1 ≤ 1 :=
    min_le_right _ _
  have h3a : (0 : ℚ) ≤ min ((pyCount skill.toLower job_desc.toLower : ℚ) / 3) 1 :=
    le_min (by positivity) (by norm_num)
  have h3b : min ((pyCount skill.toLower job_desc.toLower : ℚ) / 3) 1 ≤ 1 :=
    min_le_right _ _
  have heq : calculateContextScore skill embedding job_desc
      = 0.4 * 0.5
        + 0.3 * min ((pyCount skill.toLower job_desc.toLower : ℚ) / 5) 1
        + 0.2 * min ((pyCount skill.toLower job_desc.toLower : ℚ) / 3) 1
        + 0.1 * 0.8 := by
    simp only [calculateContextScore]
    rw [min_eq_left (by linarith)]
  refine ⟨heq, ?_, ?_⟩ <;> rw [heq] <;> linarith

/-! ### Claim C5 -/

/-- C5: for every user-skill list and every target job not present in the
requirement store, `analyze` fails with the job-not-found error before any
stage runs, and the shared embedding cache is returned unchanged. -/
theorem C5_unknown_job_fails (scorer : String → String → ℕ)
    (md5int : String → ℕ) (m : Matcher) (cache : EmbeddingCache)
    (user_skills : List String) (target_job : String)
    (resume_text job_desc : Option String)
    (h : m.job_requirements.lookup target_job = none) :
    analyze scorer md5int m cache user_skills target_job resume_text job_desc
      = (.error (.jobNotFound target_job), cache) := by
  unfold analyze
  rw [h]

/-- Witness for C5 at a concrete store with no jobs. -/
theorem C5_unknown_job_fails_witness :
    (Matcher.mk []).job_requirements.lookup "Senior Data Scientist" = none ∧
    analyze (fun _ _ => 0) (fun _ => 0) (Matcher.mk []) [] ["Python"]
        "Senior Data Scientist" none none
      = (.error (.jobNotFound "Senior Data Scientist"), []) :=
  ⟨rfl, C5_unknown_job_fails _ _ _ _ _ _ _ _ rfl⟩

/-! ### Claim C6 -/

/-- C6 (counterexample): `_find_similar_skills` does not return the
top-K cosine-similar taxonomy skills — at a concrete cache holding
embeddings for Python, Java and SQL, the specified lookup for Python's
embedding returns the two other names ranked by cosine similarity, while
the code returns the empty list. -/
theorem C6_counterexample :
    findSimilarSkills [1, 0] 2 = [] ∧
    specSimilarSkills [("Python", [1, 0]), ("Java", [1, 1]), ("SQL", [0, 1])]
        "Python" [1, 0] 2 = ["Java", "SQL"] ∧
    (["Java", "SQL"] : List String) ≠ [] :=
  ⟨rfl, by with_unfolding_all rfl, by decide⟩

/-- C6 (amended): the similar-skills lookup is a stub — it returns the
empty list for every embedding and every K, so every skill processed by
semantic enrichment carries an empty `similar_skills` list. -/
theorem C6_similar_skills_stub :
    (∀ (embedding : List ℤ) (top_k : ℕ),
      findSimilarSkills embedding top_k = []) ∧
    ∀ (md5int : String → ℕ) (scored : List (String × ScoredSkill))
      (job_desc : String) (cache : EmbeddingCache),
      ((stage2SemanticEnrichment md5int scored job_desc cache).1.map
        fun e => e.similar_skills).all (fun l => l.isEmpty) = true := by
  refine ⟨fun _ _ => rfl, ?_⟩
  intro md5int scored job_desc
  induction scored with
  | nil => intro cache; rfl
  | cons p rest ih =>
      intro cache
      simp only [stage2SemanticEnrichment, List.map_cons, List.all_cons, ih,
        Bool.and_true]
      rfl

/-! ### Pipeline lemmas -/

/-- The list of skills the store requires for a job
(`self.job_requirements[target_job]["skills"]`, or empty when the job is
absent); statement-level accessor used by the claims. -/
def jobSkills (jr : List (String × JobData)) (target_job : String) :
    List (String × SkillInfo) :=
  ((jr.lookup target_job).map JobData.skills).getD []

lemma skill_graph_lookup (jr : List (String × JobData)) (target_job : String) :
    ((buildSkillGraph jr).lookup target_job).getD []
      = (jobSkills jr target_job).map fun q =>
          (q.1,
            ({ level := q.2.complexity.getD 3
               prerequisites := q.2.prerequisites.getD []
               category := q.2.category.getD "technical" } : GraphNode)) := by
  unfold buildSkillGraph jobSkills
  rw [lookup_map_snd jobDataToGraph target_job jr]
  cases jr.lookup target_job with
  | none => rfl
  | some jd => rfl

lemma stage2_skills (md5int : String → ℕ) (job_desc : String) :
    ∀ (scored : List (String × ScoredSkill)) (cache : EmbeddingCache),
      ((stage2SemanticEnrichment md5int scored job_desc cache).1).map
          (fun e => e.skill)
        = scored.map Prod.fst
  | [], _ => rfl
  | p :: rest, cache => by
      simp only [stage2SemanticEnrichment, List.map_cons]
      rw [stage2_skills md5int job_desc rest]

lemma stage3_congr (e₁ e₂ : List EnrichedSkill)
    (g : List (String × List (String × GraphNode))) (target_job : String)
    (h : e₁.map (fun e => e.skill) = e₂.map (fun e => e.skill)) :
    stage3GraphMatching e₁ g target_job = stage3GraphMatching e₂ g target_job := by
  unfold stage3GraphMatching
  have hl : e₁.map (fun e => e.skill.toLower)
      = e₂.map (fun e => e.skill.toLower) := by
    have h₁ : e₁.map (fun e => e.skill.toLower)
        = (e₁.map fun e => e.skill).map String.toLower := by
      rw [List.map_map]; rfl
    have h₂ : e₂.map (fun e => e.skill.toLower)
        = (e₂.map fun e => e.skill).map String.toLower := by
      rw [List.map_map]; rfl
    rw [h₁, h₂, h]
  rw [hl]

/-! ### Claim C8 -/

/-- C8: `analyze` is deterministic and cache-insensitive — against the
same store and the same external scorer/digest functions, the analysis
result component is the same for *any* two embedding-cache states (cold,
warm, or anything else), so two calls with identical arguments return
identical `SkillGapAnalysisResult` values regardless of cache warmth. -/
theorem C8_deterministic_cache_independent (scorer : String → String → ℕ)
    (md5int : String → ℕ) (m : Matcher) (user_skills : List String)
    (target_job : String) (resume_text job_desc : Option String)
    (cache₁ cache₂ : EmbeddingCache) :
    (analyze scorer md5int m cache₁ user_skills target_job resume_text
      job_desc).1
      = (analyze scorer md5int m cache₂ user_skills target_job resume_text
          job_desc).1 := by
  unfold analyze
  cases hl : m.job_requirements.lookup target_job with
  | none => rfl
  | some jd =>
      simp only
      rw [stage3_congr
        (stage2SemanticEnrichment md5int
          (stage1FastNer scorer
            (pyOrDefault resume_text (String.intercalate " " user_skills))
            (pyOrDefault job_desc
              (String.intercalate " " (jd.skills.map Prod.fst)))).scored
          (pyOrDefault job_desc
            (String.intercalate " " (jd.skills.map Prod.fst))) cache₁).1
        (stage2SemanticEnrichment md5int
          (stage1FastNer scorer
            (pyOrDefault resume_text (String.intercalate " " user_skills))
            (pyOrDefault job_desc
              (String.intercalate " " (jd.skills.map Prod.fst)))).scored
          (pyOrDefault job_desc
            (String.intercalate " " (jd.skills.map Prod.fst))) cache₂).1
        m.skill_graph target_job
        (by rw [stage2_skills, stage2_skills])]

lemma stage3_spec (enriched : List EnrichedSkill)
    (jr : List (String × JobData)) (target_job : String) :
    stage3GraphMatching enriched (buildSkillGraph jr) target_job
      = (jobSkills jr target_job).map fun p =>
          if (enriched.map fun e => e.skill.toLower).contains p.1.toLower then
            ⟨p.1, "direct", 1, p.2.complexity.getD 3⟩
          else if (p.2.prerequisites.getD []) ≠ [] ∧
              ∀ q ∈ p.2.prerequisites.getD [],
                (enriched.map fun e => e.skill.toLower).contains q.toLower then
            ⟨p.1, "prerequisite_met", 0.7, p.2.complexity.getD 3⟩
          else
            ⟨p.1, "missing", 0, p.2.complexity.getD 3⟩ := by
  unfold stage3GraphMatching
  rw [skill_graph_lookup, List.map_map]
  refine List.map_congr_left fun p _ => ?_
  simp only [Function.comp]
  by_cases hc : (enriched.map fun e => e.skill.toLower).contains p.1.toLower
  · rw [if_pos hc, if_pos hc]
  · rw [if_neg hc, if_neg hc]
    by_cases hne : (p.2.prerequisites.getD []) ≠ []
    · rw [if_pos hne]
      by_cases hall : ∀ q ∈ p.2.prerequisites.getD [],
          (enriched.map fun e => e.skill.toLower).contains q.toLower
      · rw [if_pos (List.all_eq_true.mpr hall), if_pos ⟨hne, hall⟩]
      · rw [if_neg (fun hb => hall (List.all_eq_true.mp hb)),
          if_neg (fun hb => hall hb.2)]
    · rw [if_neg hne, if_neg (fun hb => hne hb.1)]

lemma stage3_type_cases (enriched : List EnrichedSkill)
    (jr : List (String × JobData)) (target_job : String) :
    ∀ gm ∈ stage3GraphMatching enriched (buildSkillGraph jr) target_job,
      gm.type = "direct" ∨ gm.type = "prerequisite_met" ∨ gm.type = "missing" := by
  intro gm hgm
  rw [stage3_spec] at hgm
  rcases List.mem_map.mp hgm with ⟨p, _, hp⟩
  subst hp
  by_cases hc : (enriched.map fun e => e.skill.toLower).contains p.1.toLower
  · rw [if_pos hc]
    exact Or.inl rfl
  · rw [if_neg hc]
    by_cases h2 : (p.2.prerequisites.getD []) ≠ [] ∧
        ∀ q ∈ p.2.prerequisites.getD [],
          (enriched.map fun e => e.skill.toLower).contains q.toLower
    · rw [if_pos h2]
      exact Or.inr (Or.inl rfl)
    · rw [if_neg h2]
      exact Or.inr (Or.inr rfl)

/-! ### Claim C1 -/

/-- C1: composed over the store, the graph stage classifies the i-th
required skill of the target job by exactly the documented three-way
rule — `direct` (score 1.0) when the case-folded required name is in the
user's resolved set, else `prerequisite_met` (score 0.7) when the
prerequisite list is non-empty and every case-folded prerequisite is
resolved, else `missing` (score 0.0) — with the required level defaulting
to 3 when the store gives no complexity; and every emitted record carries
exactly one of the three classifications. -/
theorem C1_graph_classification (enriched : List EnrichedSkill)
    (jr : List (String × JobData)) (target_job : String) :
    (stage3GraphMatching enriched (buildSkillGraph jr) target_job
        = (jobSkills jr target_job).map fun p =>
            if (enriched.map fun e => e.skill.toLower).contains p.1.toLower then
              ⟨p.1, "direct", 1, p.2.complexity.getD 3⟩
            else if (p.2.prerequisites.getD []) ≠ [] ∧
                ∀ q ∈ p.2.prerequisites.getD [],
                  (enriched.map fun e => e.skill.toLower).contains q.toLower then
              ⟨p.1, "prerequisite_met", 0.7, p.2.complexity.getD 3⟩
            else
              ⟨p.1, "missing", 0, p.2.complexity.getD 3⟩) ∧
    ∀ gm ∈ stage3GraphMatching enriched (buildSkillGraph jr) target_job,
      gm.type = "direct" ∨ gm.type = "prerequisite_met" ∨ gm.type = "missing" :=
  ⟨stage3_spec enriched jr target_job, stage3_type_cases enriched jr target_job⟩

/-- Concrete inputs shared by several witnesses: a one-job store whose
single required skill "Machine Learning" needs prerequisite "Python", a
user holding exactly "Python", a trivial exact-match scorer and a
constant digest. -/
def wJr : List (String × JobData) :=
  [("J", ⟨[("Machine Learning",
    ⟨some 5, some ["Python"], none, some 200, some 15000, none, none,
      none⟩)]⟩)]

def wEnriched : List EnrichedSkill :=
  [⟨"Python", 1, 1, [], 0.5, []⟩]

/-- Witness for C1 at the concrete store: the single required skill is
classified `prerequisite_met` with score 0.7 and level 5, and its record
carries one of the three classifications. -/
theorem C1_graph_classification_witness :
    (⟨"Machine Learning", "prerequisite_met", 0.7, 5⟩ : GraphMatch) ∈
      stage3GraphMatching wEnriched (buildSkillGraph wJr) "J" ∧
    (("prerequisite_met" : String) = "direct" ∨
      ("prerequisite_met" : String) = "prerequisite_met" ∨
      ("prerequisite_met" : String) = "missing") := by
  have hmem : (⟨"Machine Learning", "prerequisite_met", 0.7, 5⟩ : GraphMatch) ∈
      stage3GraphMatching wEnriched (buildSkillGraph wJr) "J" := by
    rw [(C1_graph_classification wEnriched wJr "J").1]
    with_unfolding_all decide
  exact ⟨hmem, (C1_graph_classification wEnriched wJr "J").2 _ hmem⟩

/-! ### Inversion of a successful `analyze` call -/

lemma analyze_ok_inv (scorer : String → String → ℕ) (md5int : String → ℕ)
    (m : Matcher) (cache : EmbeddingCache) (us : List String) (tj : String)
    (rt jd : Option String) (res : SkillGapAnalysisResult)
    (cache' : EmbeddingCache)
    (h : analyze scorer md5int m cache us tj rt jd = (.ok res, cache')) :
    ∃ jdval, m.job_requirements.lookup tj = some jdval ∧
      res = compileResults us tj jdval.skills
        (stage4QuantifiedAnalysis
          (analyzeGraphMatches scorer md5int m cache us tj rt jd) jdval.skills)
        (analyzeGraphMatches scorer md5int m cache us tj rt jd) := by
  cases hl : m.job_requirements.lookup tj with
  | none =>
      unfold analyze at h
      rw [hl] at h
      exact absurd (congrArg Prod.fst h) (by simp)
  | some jdval =>
      unfold analyze at h
      rw [hl] at h
      simp only [Prod.mk.injEq, Except.ok.injEq] at h
      refine ⟨jdval, rfl, ?_⟩
      rw [← h.1]
      unfold analyzeGraphMatches
      rw [hl]

lemma compileResults_match_percentage (us : List String) (tj : String)
    (jobreq : List (String × SkillInfo)) (gaps : List SkillGapItem)
    (gms : List GraphMatch) :
    (compileResults us tj jobreq gaps gms).match_percentage
      = round1 (if jobreq.length = 0 then 0 else
          (((gms.filter fun gm =>
              gm.type = "direct" ∨ gm.type = "prerequisite_met").length : ℚ)
            / (jobreq.length : ℚ)) * 100) := rfl

lemma stage4_roi (gms : List GraphMatch)
    (jobreq : List (String × SkillInfo)) :
    ∀ g ∈ stage4QuantifiedAnalysis gms jobreq,
      g.roi = g.salary_impact / ((max g.learning_hours 1 : ℤ) : ℚ) := by
  intro g hg
  simp only [stage4QuantifiedAnalysis] at hg
  rcases List.mem_map.mp ((sortByRoiDesc_perm _).mem_iff.mp hg) with ⟨mr, _, hm⟩
  subst hm
  rfl

lemma stage4_sorted (gms : List GraphMatch)
    (jobreq : List (String × SkillInfo)) :
    (stage4QuantifiedAnalysis gms jobreq).Pairwise
      fun a b => b.roi ≤ a.roi := by
  simp only [stage4QuantifiedAnalysis]
  exact sortByRoiDesc_sorted _

lemma stage4_length (gms : List GraphMatch)
    (jobreq : List (String × SkillInfo)) :
    (stage4QuantifiedAnalysis gms jobreq).length
      = ((gms.filter fun gm => gm.type = "missing").length) := by
  simp only [stage4QuantifiedAnalysis]
  rw [(sortByRoiDesc_perm _).length_eq, List.length_map]

lemma analyzeGraphMatches_eq (scorer : String → String → ℕ)
    (md5int : String → ℕ) (m : Matcher) (cache : EmbeddingCache)
    (us : List String) (tj : String) (rt jd : Option String) (jdval : JobData)
    (hl : m.job_requirements.lookup tj = some jdval) :
    analyzeGraphMatches scorer md5int m cache us tj rt jd
      = stage3GraphMatching
          (stage2SemanticEnrichment md5int
            (stage1FastNer scorer
              (pyOrDefault rt (String.intercalate " " us))
              (pyOrDefault jd
                (String.intercalate " " (jdval.skills.map Prod.fst)))).scored
            (pyOrDefault jd
              (String.intercalate " " (jdval.skills.map Prod.fst)))
            cache).1
          (buildSkillGraph m.job_requirements) tj := by
  unfold analyzeGraphMatches Matcher.skill_graph
  rw [hl]

lemma analyzeGraphMatches_length (scorer : String → String → ℕ)
    (md5int : String → ℕ) (m : Matcher) (cache : EmbeddingCache)
    (us : List String) (tj : String) (rt jd : Option String) (jdval : JobData)
    (hl : m.job_requirements.lookup tj = some jdval) :
    (analyzeGraphMatches scorer md5int m cache us tj rt jd).length
      = jdval.skills.length := by
  rw [analyzeGraphMatches_eq scorer md5int m cache us tj rt jd jdval hl,
    stage3_spec, List.length_map]
  unfold jobSkills
  rw [hl]
  rfl

lemma analyzeGraphMatches_types (scorer : String → String → ℕ)
    (md5int : String → ℕ) (m : Matcher) (cache : EmbeddingCache)
    (us : List String) (tj : String) (rt jd : Option String) :
    ∀ gm ∈ analyzeGraphMatches scorer md5int m cache us tj rt jd,
      gm.type = "direct" ∨ gm.type = "prerequisite_met"
        ∨ gm.type = "missing" := by
  unfold analyzeGraphMatches Matcher.skill_graph
  cases hl : m.job_requirements.lookup tj with
  | none => simp
  | some jdval =>
      exact fun gm hgm => stage3_type_cases _ m.job_requirements tj gm hgm

lemma matches_partition (gms : List GraphMatch)
    (htypes : ∀ gm ∈ gms,
      gm.type = "direct" ∨ gm.type = "prerequisite_met"
        ∨ gm.type = "missing") :
    ((gms.filter fun gm => gm.type = "missing").length)
      + ((gms.filter fun gm =>
          gm.type = "direct" ∨ gm.type = "prerequisite_met").length)
      = gms.length := by
  have hcong : (gms.filter fun gm =>
      gm.type = "direct" ∨ gm.type = "prerequisite_met")
      = gms.filter fun gm => !(decide (gm.type = "missing")) := by
    apply List.filter_congr
    intro gm hgm
    rcases htypes gm hgm with ht | ht | ht <;> rw [ht] <;> rfl
  rw [hcong]
  exact length_filter_add_length_not (fun gm => decide (gm.type = "missing"))
    gms

/-! ### Claim C3 -/

/-- C3: in every successful analysis result, each gap item's `roi` equals
`salary_impact / max(learning_hours, 1)` computed from its own stored
fields, the `skill_gaps` list is sorted by `roi` in non-increasing order,
and the sort the pipeline uses is stable with no secondary key: items of
equal `roi` keep their encounter order. -/
theorem C3_roi_sorted_stable (scorer : String → String → ℕ)
    (md5int : String → ℕ) (m : Matcher) (cache : EmbeddingCache)
    (us : List String) (tj : String) (rt jd : Option String)
    (res : SkillGapAnalysisResult) (cache' : EmbeddingCache)
    (h : analyze scorer md5int m cache us tj rt jd = (.ok res, cache')) :
    (∀ g ∈ res.skill_gaps,
      g.roi = g.salary_impact / ((max g.learning_hours 1 : ℤ) : ℚ)) ∧
    res.skill_gaps.Pairwise (fun a b => b.roi ≤ a.roi) ∧
    ∀ (l : List SkillGapItem) (r : ℚ),
      (sortByRoiDesc l).filter (fun g => decide (g.roi = r))
        = l.filter (fun g => decide (g.roi = r)) := by
  obtain ⟨jdval, hl, hres⟩ := analyze_ok_inv _ _ _ _ _ _ _ _ _ _ h
  subst hres
  exact ⟨fun g hg => stage4_roi _ _ g hg, stage4_sorted _ _,
    fun l r => sortByRoiDesc_stable l r⟩

/-! ### Claim C4 -/

/-- C4: for every successful `analyze` call, `required_skill_count` is
the number of skills the store requires for the job,
`match_percentage` equals the count of graph gms classified `direct`
or `prerequisite_met` over that total, times 100, rounded to one decimal
(and 0 when the job requires no skills), and it always lies in
`[0, 100]`. -/
theorem C4_match_percentage (scorer : String → String → ℕ)
    (md5int : String → ℕ) (m : Matcher) (cache : EmbeddingCache)
    (us : List String) (tj : String) (rt jd : Option String)
    (res : SkillGapAnalysisResult) (cache' : EmbeddingCache)
    (h : analyze scorer md5int m cache us tj rt jd = (.ok res, cache')) :
    ∃ jdval, m.job_requirements.lookup tj = some jdval ∧
      res.required_skill_count = jdval.skills.length ∧
      res.match_percentage
        = round1 (if jdval.skills.length = 0 then 0 else
            ((((analyzeGraphMatches scorer md5int m cache us tj rt jd).filter
                fun gm =>
                  gm.type = "direct" ∨ gm.type = "prerequisite_met").length : ℚ)
              / (jdval.skills.length : ℚ)) * 100) ∧
      (res.required_skill_count = 0 → res.match_percentage = 0) ∧
      (0 ≤ res.match_percentage ∧ res.match_percentage ≤ 100) := by
  obtain ⟨jdval, hl, hres⟩ := analyze_ok_inv _ _ _ _ _ _ _ _ _ _ h
  subst hres
  have hmc : ((analyzeGraphMatches scorer md5int m cache us tj rt jd).filter
      fun gm => gm.type = "direct" ∨ gm.type = "prerequisite_met").length
      ≤ jdval.skills.length := by
    calc ((analyzeGraphMatches scorer md5int m cache us tj rt jd).filter
        fun gm => gm.type = "direct" ∨ gm.type = "prerequisite_met").length
        ≤ (analyzeGraphMatches scorer md5int m cache us tj rt jd).length :=
          List.length_filter_le _ _
      _ = jdval.skills.length :=
          analyzeGraphMatches_length scorer md5int m cache us tj rt jd jdval hl
  refine ⟨jdval, hl, rfl, rfl, ?_, ?_⟩
  · intro h0
    have h0' : jdval.skills.length = 0 := h0
    rw [compileResults_match_percentage, if_pos h0', round1_zero]
  · rw [compileResults_match_percentage]
    by_cases h0 : jdval.skills.length = 0
    · rw [if_pos h0, round1_zero]
      norm_num
    · rw [if_neg h0]
      have hpos : (0 : ℚ) < (jdval.skills.length : ℚ) := by
        exact_mod_cast Nat.pos_of_ne_zero h0
      have hcast : (((analyzeGraphMatches scorer md5int m cache us tj
          rt jd).filter fun gm =>
            gm.type = "direct" ∨ gm.type = "prerequisite_met").length : ℚ)
          ≤ (jdval.skills.length : ℚ) := by exact_mod_cast hmc
      have hq0 : (0 : ℚ) ≤
          ((((analyzeGraphMatches scorer md5int m cache us tj rt jd).filter
            fun gm =>
              gm.type = "direct" ∨ gm.type = "prerequisite_met").length : ℚ)
            / (jdval.skills.length : ℚ)) * 100 := by positivity
      have hq1 : ((((analyzeGraphMatches scorer md5int m cache us tj
          rt jd).filter fun gm =>
            gm.type = "direct" ∨ gm.type = "prerequisite_met").length : ℚ)
            / (jdval.skills.length : ℚ)) * 100 ≤ 100 := by
        have hdiv : (((analyzeGraphMatches scorer md5int m cache us tj
            rt jd).filter fun gm =>
              gm.type = "direct" ∨ gm.type = "prerequisite_met").length : ℚ)
            / (jdval.skills.length : ℚ) ≤ 1 :=
          (div_le_one hpos).mpr hcast
        linarith
      exact round1_bounds hq0 hq1

/-! ### Claim C9 -/

/-- C9: in every successful `analyze` call, the graph stage emits exactly
one match record per job-required skill and the quantification stage
emits exactly one gap item per match classified `missing`, so
`skill_gaps.length` plus the number of gms classified `direct` or
`prerequisite_met` equals `required_skill_count`, and `skill_gaps` is
empty exactly when no required skill is classified `missing`. -/
theorem C9_one_record_per_skill (scorer : String → String → ℕ)
    (md5int : String → ℕ) (m : Matcher) (cache : EmbeddingCache)
    (us : List String) (tj : String) (rt jd : Option String)
    (res : SkillGapAnalysisResult) (cache' : EmbeddingCache)
    (h : analyze scorer md5int m cache us tj rt jd = (.ok res, cache')) :
    (analyzeGraphMatches scorer md5int m cache us tj rt jd).length
        = res.required_skill_count ∧
    res.skill_gaps.length
        = ((analyzeGraphMatches scorer md5int m cache us tj rt jd).filter
            fun gm => gm.type = "missing").length ∧
    res.skill_gaps.length
        + ((analyzeGraphMatches scorer md5int m cache us tj rt jd).filter
            fun gm =>
              gm.type = "direct" ∨ gm.type = "prerequisite_met").length
        = res.required_skill_count ∧
    (res.skill_gaps = [] ↔
      (analyzeGraphMatches scorer md5int m cache us tj rt jd).filter
          (fun gm => gm.type = "missing") = []) := by
  obtain ⟨jdval, hl, hres⟩ := analyze_ok_inv _ _ _ _ _ _ _ _ _ _ h
  subst hres
  have hlen := analyzeGraphMatches_length scorer md5int m cache us tj rt jd
    jdval hl
  have hpart := matches_partition _
    (analyzeGraphMatches_types scorer md5int m cache us tj rt jd)
  have hgaps : (compileResults us tj jdval.skills
      (stage4QuantifiedAnalysis
        (analyzeGraphMatches scorer md5int m cache us tj rt jd) jdval.skills)
      (analyzeGraphMatches scorer md5int m cache us tj rt jd)).skill_gaps.length
      = ((analyzeGraphMatches scorer md5int m cache us tj rt jd).filter
          fun gm => gm.type = "missing").length := stage4_length _ _
  refine ⟨hlen, hgaps, ?_, ?_⟩
  · rw [hgaps]
    show _ = jdval.skills.length
    omega
  · rw [← List.length_eq_zero, ← List.length_eq_zero, hgaps]

/-! ### Claim C7 -/

/-- Trivial scorer and digest used by concrete witnesses: exact string
match scores 100, everything else 0; the digest is constantly 0. -/
def wScorer : String → String → ℕ := fun a b => if a == b then 100 else 0

def wMd5 : String → ℕ := fun _ => 0

def wDefaultResult : SkillGapAnalysisResult :=
  ⟨"", 0, 0, 0, [], [], 0, 0, 0, 0, 0, "", []⟩

/-- The result of analysing user skill "Python" against the one-job store
`wJr` (its only skill needs prerequisite "Python"): the graph stage counts
one match, the direct-membership list counts zero. -/
def divRes : SkillGapAnalysisResult :=
  ((analyze wScorer wMd5 ⟨wJr⟩ [] ["Python"] "J" none none).1.toOption).getD
    wDefaultResult

def divCache : EmbeddingCache :=
  (analyze wScorer wMd5 ⟨wJr⟩ [] ["Python"] "J" none none).2

/-- C7: in every successful analysis result, `matched_skills` contains
exactly the job-required skills whose case-folded name occurs in the
case-folded raw `user_skills` list (direct membership, ignoring the graph
stage's prerequisite logic), `user_skill_count` is its length, and this
count can genuinely differ from the graph stage's matched count: there is
a concrete input whose result has `user_skill_count = 0` yet
`match_percentage = 100`. -/
theorem C7_matched_skills_membership (scorer : String → String → ℕ)
    (md5int : String → ℕ) (m : Matcher) (cache : EmbeddingCache)
    (us : List String) (tj : String) (rt jd : Option String)
    (res : SkillGapAnalysisResult) (cache' : EmbeddingCache)
    (h : analyze scorer md5int m cache us tj rt jd = (.ok res, cache')) :
    ∃ jdval, m.job_requirements.lookup tj = some jdval ∧
      res.matched_skills
        = (jdval.skills.filter fun p =>
            (us.map String.toLower).contains p.1.toLower).map (fun p =>
            MatchedSkill.mk p.1 "intermediate" "expert" "hybrid") ∧
      res.user_skill_count = res.matched_skills.length ∧
      ∃ (m2 : Matcher) (us2 : List String) (tj2 : String)
        (res2 : SkillGapAnalysisResult) (c2 : EmbeddingCache),
        analyze wScorer wMd5 m2 [] us2 tj2 none none = (.ok res2, c2) ∧
        res2.user_skill_count = 0 ∧ res2.match_percentage = 100 := by
  obtain ⟨jdval, hl, hres⟩ := analyze_ok_inv _ _ _ _ _ _ _ _ _ _ h
  subst hres
  refine ⟨jdval, hl, rfl, rfl,
    ⟨wJr⟩, ["Python"], "J", divRes, divCache, ?_, ?_, ?_⟩
  · with_unfolding_all rfl
  · with_unfolding_all rfl
  · with_unfolding_all rfl

/-! ### Witnesses for the analyze-level claims -/

/-- The spec §8 scenario store: Senior Data Scientist requiring Python,
Statistics, and Machine Learning (prerequisites Python and Statistics). -/
def sdsMatcher : Matcher :=
  ⟨[("Senior Data Scientist", ⟨[
    ("Python", ⟨some 3, some [], none, some 40, some 3000, none, none, none⟩),
    ("Statistics",
      ⟨some 3, some [], none, some 100, some 5000, none, none, none⟩),
    ("Machine Learning",
      ⟨some 5, some ["Python", "Statistics"], none, some 200, some 15000,
        none, none, none⟩)]⟩)]⟩

def sdsRes : SkillGapAnalysisResult :=
  ((analyze wScorer wMd5 sdsMatcher [] ["Python"] "Senior Data Scientist"
    none none).1.toOption).getD wDefaultResult

def sdsCache : EmbeddingCache :=
  (analyze wScorer wMd5 sdsMatcher [] ["Python"] "Senior Data Scientist"
    none none).2

/-- Witness for C3 at the spec §8 scenario. -/
theorem C3_roi_sorted_stable_witness :
    analyze wScorer wMd5 sdsMatcher [] ["Python"] "Senior Data Scientist"
        none none = (.ok sdsRes, sdsCache) ∧
    ((∀ g ∈ sdsRes.skill_gaps,
      g.roi = g.salary_impact / ((max g.learning_hours 1 : ℤ) : ℚ)) ∧
    sdsRes.skill_gaps.Pairwise (fun a b => b.roi ≤ a.roi) ∧
    ∀ (l : List SkillGapItem) (r : ℚ),
      (sortByRoiDesc l).filter (fun g => decide (g.roi = r))
        = l.filter (fun g => decide (g.roi = r))) :=
  have h : analyze wScorer wMd5 sdsMatcher [] ["Python"]
      "Senior Data Scientist" none none = (.ok sdsRes, sdsCache) := by
    with_unfolding_all rfl
  ⟨h, C3_roi_sorted_stable _ _ _ _ _ _ _ _ _ _ h⟩

/-- Witness for C4 at the spec §8 scenario. -/
theorem C4_match_percentage_witness :
    analyze wScorer wMd5 sdsMatcher [] ["Python"] "Senior Data Scientist"
        none none = (.ok sdsRes, sdsCache) ∧
    ∃ jdval, sdsMatcher.job_requirements.lookup "Senior Data Scientist"
        = some jdval ∧
      sdsRes.required_skill_count = jdval.skills.length ∧
      sdsRes.match_percentage
        = round1 (if jdval.skills.length = 0 then 0 else
            ((((analyzeGraphMatches wScorer wMd5 sdsMatcher [] ["Python"]
                "Senior Data Scientist" none none).filter
                fun gm =>
                  gm.type = "direct" ∨ gm.type = "prerequisite_met").length : ℚ)
              / (jdval.skills.length : ℚ)) * 100) ∧
      (sdsRes.required_skill_count = 0 → sdsRes.match_percentage = 0) ∧
      (0 ≤ sdsRes.match_percentage ∧ sdsRes.match_percentage ≤ 100) :=
  have h : analyze wScorer wMd5 sdsMatcher [] ["Python"]
      "Senior Data Scientist" none none = (.ok sdsRes, sdsCache) := by
    with_unfolding_all rfl
  ⟨h, C4_match_percentage _ _ _ _ _ _ _ _ _ _ h⟩

/-- Witness for C9 at the spec §8 scenario. -/
theorem C9_one_record_per_skill_witness :
    analyze wScorer wMd5 sdsMatcher [] ["Python"] "Senior Data Scientist"
        none none = (.ok sdsRes, sdsCache) ∧
    ((analyzeGraphMatches wScorer wMd5 sdsMatcher [] ["Python"]
        "Senior Data Scientist" none none).length
        = sdsRes.required_skill_count ∧
    sdsRes.skill_gaps.length
        = ((analyzeGraphMatches wScorer wMd5 sdsMatcher [] ["Python"]
            "Senior Data Scientist" none none).filter
            fun gm => gm.type = "missing").length ∧
    sdsRes.skill_gaps.length
        + ((analyzeGraphMatches wScorer wMd5 sdsMatcher [] ["Python"]
            "Senior Data Scientist" none none).filter
            fun gm =>
              gm.type = "direct" ∨ gm.type = "prerequisite_met").length
        = sdsRes.required_skill_count ∧
    (sdsRes.skill_gaps = [] ↔
      (analyzeGraphMatches wScorer wMd5 sdsMatcher [] ["Python"]
          "Senior Data Scientist" none none).filter
          (fun gm => gm.type = "missing") = [])) :=
  have h : analyze wScorer wMd5 sdsMatcher [] ["Python"]
      "Senior Data Scientist" none none = (.ok sdsRes, sdsCache) := by
    with_unfolding_all rfl
  ⟨h, C9_one_record_per_skill _ _ _ _ _ _ _ _ _ _ h⟩

/-- Witness for C7 at the spec §8 scenario. -/
theorem C7_matched_skills_membership_witness :
    analyze wScorer wMd5 sdsMatcher [] ["Python"] "Senior Data Scientist"
        none none = (.ok sdsRes, sdsCache) ∧
    ∃ jdval, sdsMatcher.job_requirements.lookup "Senior Data Scientist"
        = some jdval ∧
      sdsRes.matched_skills
        = (jdval.skills.filter fun p =>
            ((["Python"] : List String).map String.toLower).contains
              p.1.toLower).map (fun p =>
            MatchedSkill.mk p.1 "intermediate" "expert" "hybrid") ∧
      sdsRes.user_skill_count = sdsRes.matched_skills.length ∧
      ∃ (m2 : Matcher) (us2 : List String) (tj2 : String)
        (res2 : SkillGapAnalysisResult) (c2 : EmbeddingCache),
        analyze wScorer wMd5 m2 [] us2 tj2 none none = (.ok res2, c2) ∧
        res2.user_skill_count = 0 ∧ res2.match_percentage = 100 :=
  have h : analyze wScorer wMd5 sdsMatcher [] ["Python"]
      "Senior Data Scientist" none none = (.ok sdsRes, sdsCache) := by
    with_unfolding_all rfl
  ⟨h, C7_matched_skills_membership _ _ _ _ _ _ _ _ _ _ h⟩

/-- Witness for C2 at the exact bucket boundaries: scores of exactly
7.5 (125 h, 30000), 6.0 (200 h, 30000) and 4.0 (300 h, 30000) map to the
higher bucket, and a low score (300 h, 0) maps to `low`; the stored base
priority string is immaterial each time. -/
theorem C2_priority_pure_function_witness :
    determinePriority "medium" 125 30000 = specPriority 125 30000 ∧
    specPriority 125 30000 = SkillPriority.critical ∧
    determinePriority "low" 200 30000 = specPriority 200 30000 ∧
    specPriority 200 30000 = SkillPriority.high ∧
    determinePriority "critical" 300 30000 = specPriority 300 30000 ∧
    specPriority 300 30000 = SkillPriority.medium ∧
    determinePriority "high" 300 0 = specPriority 300 0 ∧
    specPriority 300 0 = SkillPriority.low :=
  ⟨C2_priority_pure_function "medium" 125 30000, by with_unfolding_all rfl,
    C2_priority_pure_function "low" 200 30000, by with_unfolding_all rfl,
    C2_priority_pure_function "critical" 300 30000, by with_unfolding_all rfl,
    C2_priority_pure_function "high" 300 0, by with_unfolding_all rfl⟩

/-- Witness for C10 at a concrete skill and job description. -/
theorem C10_context_score_formula_witness :
    calculateContextScore "python" [] "python and python"
      = 0.4 * 0.5
        + 0.3 * min ((pyCount "python".toLower "python and python".toLower : ℚ) / 5) 1
        + 0.2 * min ((pyCount "python".toLower "python and python".toLower : ℚ) / 3) 1
        + 0.1 * 0.8
      ∧ 0.28 ≤ calculateContextScore "python" [] "python and python"
      ∧ calculateContextScore "python" [] "python and python" ≤ 0.78 :=
  C10_context_score_formula "python" [] "python and python"

/-- Witness for C8: a cold (empty) cache and the warm cache left by a
previous identical call give the same analysis result. -/
theorem C8_deterministic_cache_independent_witness :
    (analyze wScorer wMd5 sdsMatcher [] ["Python"] "Senior Data Scientist"
      none none).1
      = (analyze wScorer wMd5 sdsMatcher sdsCache ["Python"]
          "Senior Data Scientist" none none).1 :=
  C8_deterministic_cache_independent wScorer wMd5 sdsMatcher ["Python"]
    "Senior Data Scientist" none none [] sdsCache

/-- Witness for the amended C6 at a concrete enrichment run. -/
theorem C6_similar_skills_stub_witness :
    findSimilarSkills [1, 1] 2 = [] ∧
    ((stage2SemanticEnrichment wMd5 [("Python", ⟨1, 1, 0⟩)] "python" []).1.map
      fun e => e.similar_skills).all (fun l => l.isEmpty) = true :=
  ⟨C6_similar_skills_stub.1 [1, 1] 2,
    C6_similar_skills_stub.2 wMd5 [("Python", ⟨1, 1, 0⟩)] "python" []⟩

end SkillGap
